import Mathlib

/-!
# resolve.go (go-dig): a shallow embedding

The program is a single `main` that reads `os.Args`, asks the system resolver
for the addresses and the nameservers of a hostname, and prints the results
with `fmt.Printf` / `fmt.Println`.

The embedding makes every effect of `main` an event of a trace: a write to a
standard stream, or a call of one of the two resolver operations.  The
resolver is a parameter (two functions); the strings it hands back are
arbitrary.
-/

namespace GoDig

/-! ## Data returned by the resolver -/

/-- An address as `net.LookupIP` returns it.  The program only ever calls
`ip.String()` on it, so an address is represented by that rendering. -/
structure IP where
  text : String
  deriving DecidableEq, Repr

/-- The method `ip.String()`. -/
def IP.String (ip : IP) : String := ip.text

/-- A nameserver record `*net.NS`; the program reads its field `Host`. -/
structure NS where
  Host : String
  deriving DecidableEq, Repr

/-- A non-nil Go `error`; `fmt.Println(err)` prints the result of `err.Error()`. -/
structure GoError where
  Error : String
  deriving DecidableEq, Repr

/-- The two resolver operations used by `main`: `net.LookupIP` and `net.LookupNS`.
Each returns either a non-nil error or a result list. -/
structure Resolver where
  LookupIP : String → Except GoError (List IP)
  LookupNS : String → Except GoError (List NS)

/-! ## Effects -/

/-- The two standard streams a Go program can print to. -/
inductive Stream where
  | Stdout
  | Stderr
  deriving DecidableEq, Repr

/-- One observable effect of the program. -/
inductive Event where
  | Write (fd : Stream) (text : String)
  | CallLookupIP (host : String)
  | CallLookupNS (host : String)
  deriving DecidableEq, Repr

/-- The trace of effects so far, oldest first. -/
abbrev World := List Event

/-- How the function `main` ends: by returning, or by a run-time panic. -/
inductive Outcome where
  | returned
  | panicked (msg : String)
  deriving DecidableEq, Repr

/-! ## The parts of `fmt` and `net` that `main` uses -/

/-- The formatting of `fmt.Printf` restricted to what the program uses: the
verb `%s` with string operands (a missing operand renders as
`%!s(MISSING)`), every other character copied. -/
def formatChars : List Char → List String → List Char
  | [], _ => []
  | '%' :: 's' :: rest, a :: as => a.data ++ formatChars rest as
  | '%' :: 's' :: rest, [] => "%!s(MISSING)".data ++ formatChars rest []
  | c :: rest, as => c :: formatChars rest as

/-- The string `fmt.Sprintf(format, args...)` for `%s` formats. -/
def Sprintf (format : String) (args : List String) : String :=
  ⟨formatChars format.data args⟩

/-- The call `fmt.Printf(format, args...)`: one write to standard output. -/
def Printf (format : String) (args : List String) (w : World) : World :=
  w ++ [Event.Write Stream.Stdout (Sprintf format args)]

/-- The call `fmt.Println(s)`: the operand and a newline, written to standard output. -/
def Println (s : String) (w : World) : World :=
  w ++ [Event.Write Stream.Stdout (s ++ "\n")]

/-- The call `net.LookupIP(host)`: recorded in the trace, answered by the resolver. -/
def LookupIP (r : Resolver) (host : String) (w : World) :
    Except GoError (List IP) × World :=
  (r.LookupIP host, w ++ [Event.CallLookupIP host])

/-- The call `net.LookupNS(host)`: recorded in the trace, answered by the resolver. -/
def LookupNS (r : Resolver) (host : String) (w : World) :
    Except GoError (List NS) × World :=
  (r.LookupNS host, w ++ [Event.CallLookupNS host])

/-! ## The program -/

/-- The loop `for _, ip := range ips { ip_list += ip.String() + " " }`,
started from `ip_list := ""`. -/
def ipList (ips : List IP) : String :=
  ips.foldl (fun ip_list ip => ip_list ++ (ip.String ++ " ")) ""

/-- The loop `for _, ns := range nameservers { ns_list += ns.Host + " " }`,
started from `ns_list := ""`. -/
def nsList (nameservers : List NS) : String :=
  nameservers.foldl (fun ns_list ns => ns_list ++ (ns.Host ++ " ")) ""

/-- The function `main` of resolve.go, over the argument vector `os.Args`.
Indexing `os.Args[1]` panics when the index is out of range. -/
def main (r : Resolver) (Args : List String) (w : World) : World × Outcome :=
  if Args.length < 2 then
    (Println "Usage: go-dig <hostname>" w, Outcome.returned)
  else
    match Args[1]? with
    | none => (w, Outcome.panicked "index out of range")
    | some hostname =>
      match LookupIP r hostname w with
      | (Except.error err, w) => (Println err.Error w, Outcome.returned)
      | (Except.ok ips, w) =>
        let w := Printf "A records for %s: " [hostname] w
        let ip_list := ipList ips
        let w := Println ip_list w
        match LookupNS r hostname w with
        | (Except.error err, w) => (Println err.Error w, Outcome.returned)
        | (Except.ok nameservers, w) =>
          let w := Printf "\nNS records for %s: " [hostname] w
          let ns_list := nsList nameservers
          (Println ns_list w, Outcome.returned)

/-- A finished process: everything it did, and its exit status. -/
structure Process where
  trace : World
  exit : Nat
  deriving DecidableEq, Repr

/-- The Go runtime around `main`: the trace starts empty; when `main`
returns the process exits with status 0; a panic writes its message to
standard error and exits with status 2. -/
def run (r : Resolver) (Args : List String) : Process :=
  match main r Args [] with
  | (w, Outcome.returned) => { trace := w, exit := 0 }
  | (w, Outcome.panicked msg) =>
    { trace := w ++ [Event.Write Stream.Stderr ("panic: " ++ msg ++ "\n")], exit := 2 }

/-! ## Observations on a trace -/

/-- The texts written to a stream, in order, one per write. -/
def writesTo (fd : Stream) : World → List String
  | [] => []
  | Event.Write fd' text :: rest =>
    if fd' = fd then text :: writesTo fd rest else writesTo fd rest
  | _ :: rest => writesTo fd rest

/-- Everything written to a stream, as one string. -/
def textOf (fd : Stream) (w : World) : String :=
  String.join (writesTo fd w)

/-- What the process wrote to standard output. -/
def Process.stdout (p : Process) : String := textOf Stream.Stdout p.trace

/-- What the process wrote to standard error. -/
def Process.stderr (p : Process) : String := textOf Stream.Stderr p.trace

/-- A resolver call, as seen from outside. -/
inductive Call where
  | LookupIP (host : String)
  | LookupNS (host : String)
  deriving DecidableEq, Repr

/-- The resolver calls of a trace, in order. -/
def callsOf : World → List Call
  | [] => []
  | Event.CallLookupIP host :: rest => Call.LookupIP host :: callsOf rest
  | Event.CallLookupNS host :: rest => Call.LookupNS host :: callsOf rest
  | Event.Write _ _ :: rest => callsOf rest

/-- The resolver calls the process made. -/
def Process.calls (p : Process) : List Call := callsOf p.trace

/-- A resolver with the same fixed answers for every hostname. -/
def constResolver (a : Except GoError (List IP)) (n : Except GoError (List NS)) : Resolver :=
  { LookupIP := fun _ => a, LookupNS := fun _ => n }

/-- The resolver of the running example: one address, two nameservers. -/
def exampleResolver : Resolver :=
  constResolver (Except.ok [⟨"93.184.216.34"⟩])
    (Except.ok [⟨"a.iana-servers.net."⟩, ⟨"b.iana-servers.net."⟩])

/-- A resolver that finds the address of the running example but no nameserver. -/
def noNSResolver : Resolver :=
  constResolver (Except.ok [⟨"93.184.216.34"⟩])
    (Except.error ⟨"lookup example.com: no such host"⟩)

/-- A resolver for which every lookup fails. -/
def failingResolver : Resolver :=
  constResolver (Except.error ⟨"lookup nohost.invalid: no such host"⟩)
    (Except.error ⟨"lookup nohost.invalid: no such host"⟩)

/-- The addresses as the specification writes them: each one followed by a space. -/
def spaceTerminated (items : List String) : String :=
  String.join (items.map (fun s => s ++ " "))

/-- The A-record line of the specification, newline included. -/
def aLine (h : String) (ips : List IP) : String :=
  "A records for " ++ h ++ ": " ++ spaceTerminated (ips.map IP.String) ++ "\n"

/-- The text that follows a leading line of the output, when the output
starts with that line. -/
def textAfter (line out : String) : Option String :=
  if line.data.isPrefixOf out.data then some ⟨out.data.drop line.data.length⟩ else none

/-- Whether a text starts with an empty line, that is, with a newline. -/
def startsWithBlankLine (s : String) : Bool :=
  s.data.head? = some '\n'

/-- Whether a call is an address lookup. -/
def Call.isLookupIP : Call → Bool
  | Call.LookupIP _ => true
  | Call.LookupNS _ => false

/-- Whether a call is a nameserver lookup. -/
def Call.isLookupNS : Call → Bool
  | Call.LookupIP _ => false
  | Call.LookupNS _ => true

/-- The pieces of a text split on the space separator, the final piece
(what follows the last space) discarded. -/
def fields (s : String) : List String :=
  ((s.data.splitOn ' ').dropLast).map String.mk

/-- A written line without its terminating newline. -/
def chomp (line : String) : String :=
  if line.data.getLast? = some '\n' then ⟨line.data.dropLast⟩ else line

/-- The text that follows a leading label of the output, up to the first
newline, when the output starts with that label. -/
def lineAfter (label out : String) : Option String :=
  if label.data.isPrefixOf out.data then
    some ⟨(out.data.drop label.data.length).takeWhile (fun c => c != '\n')⟩
  else none

/-- A resolver for which both lookups succeed with nothing. -/
def emptyResolver : Resolver :=
  constResolver (Except.ok []) (Except.ok [])

/-! ## Basic facts about the embedding -/

theorem Sprintf_A (h : String) :
    Sprintf "A records for %s: " [h] = "A records for " ++ h ++ ": " := by
  apply String.ext
  simp [Sprintf, formatChars]

theorem Sprintf_NS (h : String) :
    Sprintf "\nNS records for %s: " [h] = "\nNS records for " ++ h ++ ": " := by
  apply String.ext
  simp [Sprintf, formatChars]

theorem foldl_append_join {α : Type} (f : α → String) (xs : List α) (acc : String) :
    xs.foldl (fun s x => s ++ f x) acc = acc ++ String.join (xs.map f) := by
  induction xs generalizing acc with
  | nil => apply String.ext; simp
  | cons x xs ih =>
    simp only [List.foldl_cons, List.map_cons, ih]
    apply String.ext
    simp

theorem ipList_eq (ips : List IP) :
    ipList ips = String.join (ips.map (fun ip => ip.String ++ " ")) := by
  unfold ipList
  rw [foldl_append_join (fun ip : IP => ip.String ++ " ") ips ""]
  apply String.ext
  simp

theorem nsList_eq (nss : List NS) :
    nsList nss = String.join (nss.map (fun ns => ns.Host ++ " ")) := by
  unfold nsList
  rw [foldl_append_join (fun ns : NS => ns.Host ++ " ") nss ""]
  apply String.ext
  simp

theorem get?_one_of_length {Args : List String} (h : ¬ Args.length < 2) :
    ∃ hostname, Args[1]? = some hostname := by
  match Args, h with
  | [], h => simp at h
  | [_], h => simp at h
  | _ :: b :: _, _ => exact ⟨b, by simp⟩

theorem length_of_get?_one {Args : List String} {hostname : String}
    (h : Args[1]? = some hostname) : ¬ Args.length < 2 := by
  match Args, h with
  | _ :: _ :: _, _ => simp

/-- The run without a hostname argument. -/
theorem run_noArg (r : Resolver) (Args : List String) (h : Args.length < 2) :
    run r Args =
      { trace := [Event.Write Stream.Stdout "Usage: go-dig <hostname>\n"], exit := 0 } := by
  simp [run, main, h, Println]

/-- The run in which the address lookup fails. -/
theorem run_ipErr (r : Resolver) (Args : List String) (hostname : String) (e : GoError)
    (hA : Args[1]? = some hostname) (hip : r.LookupIP hostname = Except.error e) :
    run r Args =
      { trace := [Event.CallLookupIP hostname,
                  Event.Write Stream.Stdout (e.Error ++ "\n")],
        exit := 0 } := by
  simp [run, main, length_of_get?_one hA, hA, LookupIP, hip, Println]

/-- The run in which the address lookup succeeds and the nameserver lookup fails. -/
theorem run_nsErr (r : Resolver) (Args : List String) (hostname : String)
    (ips : List IP) (e : GoError)
    (hA : Args[1]? = some hostname) (hip : r.LookupIP hostname = Except.ok ips)
    (hns : r.LookupNS hostname = Except.error e) :
    run r Args =
      { trace := [Event.CallLookupIP hostname,
                  Event.Write Stream.Stdout ("A records for " ++ hostname ++ ": "),
                  Event.Write Stream.Stdout (ipList ips ++ "\n"),
                  Event.CallLookupNS hostname,
                  Event.Write Stream.Stdout (e.Error ++ "\n")],
        exit := 0 } := by
  simp [run, main, length_of_get?_one hA, hA, LookupIP, hip, LookupNS, hns, Println, Printf,
    Sprintf_A]

/-- The run in which both lookups succeed. -/
theorem run_ok (r : Resolver) (Args : List String) (hostname : String)
    (ips : List IP) (nss : List NS)
    (hA : Args[1]? = some hostname) (hip : r.LookupIP hostname = Except.ok ips)
    (hns : r.LookupNS hostname = Except.ok nss) :
    run r Args =
      { trace := [Event.CallLookupIP hostname,
                  Event.Write Stream.Stdout ("A records for " ++ hostname ++ ": "),
                  Event.Write Stream.Stdout (ipList ips ++ "\n"),
                  Event.CallLookupNS hostname,
                  Event.Write Stream.Stdout ("\nNS records for " ++ hostname ++ ": "),
                  Event.Write Stream.Stdout (nsList nss ++ "\n")],
        exit := 0 } := by
  simp [run, main, length_of_get?_one hA, hA, LookupIP, hip, LookupNS, hns, Println, Printf,
    Sprintf_A, Sprintf_NS]

theorem ipList_spaceTerminated (ips : List IP) :
    ipList ips = spaceTerminated (ips.map IP.String) := by
  rw [ipList_eq]; simp [spaceTerminated, Function.comp_def]

theorem nsList_spaceTerminated (nss : List NS) :
    nsList nss = spaceTerminated (nss.map NS.Host) := by
  rw [nsList_eq]; simp [spaceTerminated, Function.comp_def]

theorem length_lt_two_iff (Args : List String) : Args.length < 2 ↔ Args[1]? = none := by
  match Args with
  | [] => simp
  | [_] => simp
  | _ :: _ :: _ => simp

/-- Every run has one of four shapes. -/
theorem run_cases (r : Resolver) (Args : List String) :
    (Args[1]? = none ∧
      run r Args =
        { trace := [Event.Write Stream.Stdout "Usage: go-dig <hostname>\n"], exit := 0 }) ∨
    (∃ h e, Args[1]? = some h ∧ r.LookupIP h = Except.error e ∧
      run r Args =
        { trace := [Event.CallLookupIP h, Event.Write Stream.Stdout (e.Error ++ "\n")],
          exit := 0 }) ∨
    (∃ h ips e, Args[1]? = some h ∧ r.LookupIP h = Except.ok ips ∧
      r.LookupNS h = Except.error e ∧
      run r Args =
        { trace := [Event.CallLookupIP h,
                    Event.Write Stream.Stdout ("A records for " ++ h ++ ": "),
                    Event.Write Stream.Stdout (ipList ips ++ "\n"),
                    Event.CallLookupNS h,
                    Event.Write Stream.Stdout (e.Error ++ "\n")],
          exit := 0 }) ∨
    (∃ h ips nss, Args[1]? = some h ∧ r.LookupIP h = Except.ok ips ∧
      r.LookupNS h = Except.ok nss ∧
      run r Args =
        { trace := [Event.CallLookupIP h,
                    Event.Write Stream.Stdout ("A records for " ++ h ++ ": "),
                    Event.Write Stream.Stdout (ipList ips ++ "\n"),
                    Event.CallLookupNS h,
                    Event.Write Stream.Stdout ("\nNS records for " ++ h ++ ": "),
                    Event.Write Stream.Stdout (nsList nss ++ "\n")],
          exit := 0 }) := by
  by_cases hlen : Args.length < 2
  · exact Or.inl ⟨(length_lt_two_iff Args).1 hlen, run_noArg r Args hlen⟩
  · obtain ⟨h, hA⟩ := get?_one_of_length hlen
    cases hip : r.LookupIP h with
    | error e => exact Or.inr (Or.inl ⟨h, e, hA, hip, run_ipErr r Args h e hA hip⟩)
    | ok ips =>
      cases hns : r.LookupNS h with
      | error e =>
        exact Or.inr (Or.inr (Or.inl ⟨h, ips, e, hA, hip, hns, run_nsErr r Args h ips e hA hip hns⟩))
      | ok nss =>
        exact Or.inr (Or.inr (Or.inr ⟨h, ips, nss, hA, hip, hns, run_ok r Args h ips nss hA hip hns⟩))

/-- A run depends on the argument vector only through `os.Args[1]`. -/
theorem run_congr (r : Resolver) (Args Args' : List String) (h : Args[1]? = Args'[1]?) :
    run r Args = run r Args' := by
  have hlen : (Args.length < 2) = (Args'.length < 2) := by
    rw [length_lt_two_iff, length_lt_two_iff, h]
  simp only [run, main, hlen, h]

theorem flatten_sep_eq_intercalate {α : Type} (x : α) (ls : List (List α)) :
    (ls.map (fun l => l ++ [x])).flatten = [x].intercalate (ls ++ [[]]) := by
  induction ls with
  | nil => simp [List.intercalate]
  | cons l ls ih =>
    cases ls with
    | nil => simp [List.intercalate]
    | cons l' ls' =>
      simp only [List.map_cons, List.flatten_cons, List.cons_append] at ih ⊢
      rw [ih]
      simp [List.intercalate]

theorem splitOn_sep {α : Type} [DecidableEq α] (x : α) (ls : List (List α))
    (hx : ∀ l ∈ ls, x ∉ l) :
    ((ls.map (fun l => l ++ [x])).flatten.splitOn x).dropLast = ls := by
  rw [flatten_sep_eq_intercalate, List.splitOn_intercalate _ x _ (by simp)]
  · simp
  · intro l hl
    rcases List.mem_append.1 hl with h | h
    · exact hx l h
    · simp at h; subst h; simp

theorem spaceTerminated_data (items : List String) :
    (spaceTerminated items).data =
      ((items.map String.data).map (fun l => l ++ [' '])).flatten := by
  simp [spaceTerminated, Function.comp_def]

/-- Splitting the space-terminated text gives the items back. -/
theorem fields_spaceTerminated (items : List String)
    (hsp : ∀ s ∈ items, ' ' ∉ s.data) :
    fields (spaceTerminated items) = items := by
  unfold fields
  rw [spaceTerminated_data, splitOn_sep]
  · simp [Function.comp_def]
  · intro l hl
    obtain ⟨s, hs, rfl⟩ := List.mem_map.1 hl
    exact hsp s hs

theorem chomp_append_newline (s : String) : chomp (s ++ "\n") = s := by
  simp [chomp]

theorem takeWhile_newline (l rest : List Char) (hl : '\n' ∉ l) :
    (l ++ '\n' :: rest).takeWhile (fun c => c != '\n') = l := by
  induction l with
  | nil => simp
  | cons c l ih =>
    have hc : c ≠ '\n' := fun h => hl (h ▸ List.mem_cons_self _ _)
    have hl' : '\n' ∉ l := fun h => hl (List.mem_cons_of_mem _ h)
    simp [List.takeWhile_cons, hc, ih hl']

theorem lineAfter_append (label text rest : String) (ht : '\n' ∉ text.data) :
    lineAfter label (label ++ text ++ "\n" ++ rest) = some text := by
  have hp : label.data <+: label.data ++ (text.data ++ '\n' :: rest.data) :=
    List.prefix_append _ _
  simp [lineAfter, hp, takeWhile_newline _ _ ht]

theorem newline_not_mem_spaceTerminated (items : List String)
    (hnl : ∀ s ∈ items, '\n' ∉ s.data) : '\n' ∉ (spaceTerminated items).data := by
  rw [spaceTerminated_data]
  simp only [List.mem_flatten, List.mem_map, not_exists, not_and]
  rintro l ⟨l', ⟨s, hs, rfl⟩, rfl⟩ hmem
  rcases List.mem_append.1 hmem with h | h
  · exact hnl s hs h
  · simp at h

/-- The output of every run is some text followed by a newline. -/
theorem stdout_ends_with_newline (r : Resolver) (Args : List String) :
    ∃ body : List Char, (run r Args).stdout.data = body ++ ['\n'] := by
  rcases run_cases r Args with ⟨_, hrun⟩ | ⟨h, e, _, _, hrun⟩ |
    ⟨h, ips, e, _, _, _, hrun⟩ | ⟨h, ips, nss, _, _, _, hrun⟩
  · exact ⟨"Usage: go-dig <hostname>".data, by rw [hrun]; decide⟩
  · exact ⟨e.Error.data, by rw [hrun]; simp [Process.stdout, textOf, writesTo]⟩
  · exact ⟨("A records for " ++ h ++ ": " ++ ipList ips ++ "\n" ++ e.Error).data,
      by rw [hrun]; simp [Process.stdout, textOf, writesTo]⟩
  · exact ⟨("A records for " ++ h ++ ": " ++ ipList ips ++ "\n" ++
        "\nNS records for " ++ h ++ ": " ++ nsList nss).data,
      by rw [hrun]; simp [Process.stdout, textOf, writesTo]⟩

/-! ## The claims -/

/-- C1: when both lookups of `h` succeed, with `ips` and `nss`, the run on
`[prog, h]` writes to standard output exactly the A label, every address
followed by a space, a newline, then a newline and the NS label, every
nameserver followed by a space, and a newline. -/
theorem C1_success_output (r : Resolver) (prog h : String) (ips : List IP) (nss : List NS)
    (hip : r.LookupIP h = Except.ok ips) (hns : r.LookupNS h = Except.ok nss) :
    (run r [prog, h]).stdout =
      "A records for " ++ h ++ ": " ++ String.join (ips.map (fun ip => ip.String ++ " "))
        ++ "\n" ++ "\nNS records for " ++ h ++ ": "
        ++ String.join (nss.map (fun ns => ns.Host ++ " ")) ++ "\n" := by
  rw [run_ok r [prog, h] h ips nss (by simp) hip hns, ← ipList_eq, ← nsList_eq]
  apply String.ext
  simp [Process.stdout, textOf, writesTo]

theorem C1_success_output_witness :
    (run exampleResolver ["go-dig", "example.com"]).stdout =
      "A records for example.com: 93.184.216.34 \n\nNS records for example.com: a.iana-servers.net. b.iana-servers.net. \n" :=
  (C1_success_output exampleResolver "go-dig" "example.com" [⟨"93.184.216.34"⟩]
    [⟨"a.iana-servers.net."⟩, ⟨"b.iana-servers.net."⟩] rfl rfl).trans (by decide)

/-- C2: with fewer than two arguments the run writes exactly the usage line
to standard output and makes no resolver call. -/
theorem C2_usage_no_lookup (r : Resolver) (Args : List String) (h : Args.length < 2) :
    (run r Args).stdout = "Usage: go-dig <hostname>\n" ∧ (run r Args).calls = [] ∧
      (run r Args).trace = [Event.Write Stream.Stdout "Usage: go-dig <hostname>\n"] := by
  rw [run_noArg r Args h]
  refine ⟨?_, ?_, rfl⟩
  · apply String.ext
    simp [Process.stdout, textOf, writesTo]
  · simp [Process.calls, callsOf]

theorem C2_usage_no_lookup_witness :
    (run exampleResolver ["go-dig"]).stdout = "Usage: go-dig <hostname>\n" ∧
      (run exampleResolver ["go-dig"]).calls = [] ∧
      (run exampleResolver []).stdout = "Usage: go-dig <hostname>\n" ∧
      (run exampleResolver []).calls = [] :=
  ⟨(C2_usage_no_lookup exampleResolver ["go-dig"] (by decide)).1,
   (C2_usage_no_lookup exampleResolver ["go-dig"] (by decide)).2.1,
   (C2_usage_no_lookup exampleResolver [] (by decide)).1,
   (C2_usage_no_lookup exampleResolver [] (by decide)).2.1⟩

/-- C3: when the address lookup of `h` fails with `e`, the run on `[prog, h]`
writes the description of `e` and a newline, in a single write and nothing
else, and the only resolver call is the address lookup: the nameserver
lookup is not called. -/
theorem C3_address_failure (r : Resolver) (prog h : String) (e : GoError)
    (hip : r.LookupIP h = Except.error e) :
    (run r [prog, h]).stdout = e.Error ++ "\n" ∧
      writesTo Stream.Stdout (run r [prog, h]).trace = [e.Error ++ "\n"] ∧
      (run r [prog, h]).calls = [Call.LookupIP h] ∧
      ∀ host, Call.LookupNS host ∉ (run r [prog, h]).calls := by
  rw [run_ipErr r [prog, h] h e (by simp) hip]
  refine ⟨?_, ?_, ?_, ?_⟩
  · apply String.ext
    simp [Process.stdout, textOf, writesTo]
  · simp [writesTo]
  · simp [Process.calls, callsOf]
  · simp [Process.calls, callsOf]

theorem C3_address_failure_witness :
    (run failingResolver ["go-dig", "nohost.invalid"]).stdout =
        "lookup nohost.invalid: no such host\n" ∧
      (run failingResolver ["go-dig", "nohost.invalid"]).calls =
        [Call.LookupIP "nohost.invalid"] :=
  ⟨(C3_address_failure failingResolver "go-dig" "nohost.invalid"
      ⟨"lookup nohost.invalid: no such host"⟩ rfl).1.trans (by decide),
   (C3_address_failure failingResolver "go-dig" "nohost.invalid"
      ⟨"lookup nohost.invalid: no such host"⟩ rfl).2.2.1⟩

theorem nsErr_output (r : Resolver) (prog h : String) (ips : List IP)
    (e : GoError)
    (hip : r.LookupIP h = Except.ok ips) (hns : r.LookupNS h = Except.error e) :
    (run r [prog, h]).stdout =
        "A records for " ++ h ++ ": " ++ spaceTerminated (ips.map IP.String) ++ "\n"
          ++ e.Error ++ "\n" ∧
      writesTo Stream.Stdout (run r [prog, h]).trace =
        ["A records for " ++ h ++ ": ", spaceTerminated (ips.map IP.String) ++ "\n",
          e.Error ++ "\n"] := by
  rw [run_nsErr r [prog, h] h ips e (by simp) hip hns, ipList_spaceTerminated]
  refine ⟨?_, ?_⟩
  · apply String.ext
    simp [Process.stdout, textOf, writesTo]
  · simp [writesTo]

/-- C4: when the address lookup of `h` succeeds with `ips` and the nameserver
lookup fails with `e`, the output is exactly the A-record line followed
immediately by the description of `e` and a newline; the writes are the A
label, the address list and the error, so no NS label and no nameserver list
is written. -/
theorem C4_nameserver_failure (r : Resolver) (prog h : String) (ips : List IP) (e : GoError)
    (hip : r.LookupIP h = Except.ok ips) (hns : r.LookupNS h = Except.error e) :
    (run r [prog, h]).stdout =
        "A records for " ++ h ++ ": " ++ spaceTerminated (ips.map IP.String) ++ "\n"
          ++ e.Error ++ "\n" ∧
      writesTo Stream.Stdout (run r [prog, h]).trace =
        ["A records for " ++ h ++ ": ", spaceTerminated (ips.map IP.String) ++ "\n",
          e.Error ++ "\n"] :=
  nsErr_output r prog h ips e hip hns

theorem C4_nameserver_failure_witness :
    (run noNSResolver ["go-dig", "example.com"]).stdout =
      "A records for example.com: 93.184.216.34 \nlookup example.com: no such host\n" :=
  (C4_nameserver_failure noNSResolver "go-dig" "example.com" [⟨"93.184.216.34"⟩]
    ⟨"lookup example.com: no such host"⟩ rfl rfl).1.trans (by decide)

theorem textAfter_append (line rest : String) :
    textAfter line (line ++ rest) = some rest := by
  simp [textAfter, List.prefix_append]

/-- C5, as the specification states it, fails: with the address found and
the nameserver lookup failing, the text after the A-record line is the error
description itself; no empty line precedes it. -/
theorem C5_blank_line_counterexample :
    noNSResolver.LookupIP "example.com" = Except.ok [⟨"93.184.216.34"⟩] ∧
      noNSResolver.LookupNS "example.com" =
        Except.error ⟨"lookup example.com: no such host"⟩ ∧
      (run noNSResolver ["go-dig", "example.com"]).stdout =
        "A records for example.com: 93.184.216.34 \nlookup example.com: no such host\n" ∧
      textAfter (aLine "example.com" [⟨"93.184.216.34"⟩])
          (run noNSResolver ["go-dig", "example.com"]).stdout =
        some "lookup example.com: no such host\n" ∧
      textAfter (aLine "example.com" [⟨"93.184.216.34"⟩])
          (run noNSResolver ["go-dig", "example.com"]).stdout ≠
        some ("\n" ++ "lookup example.com: no such host" ++ "\n") ∧
      startsWithBlankLine "lookup example.com: no such host\n" = false :=
  ⟨rfl, rfl, by decide, by decide, by decide, by decide⟩

/-- C5, amended: when the address lookup succeeds and the nameserver lookup
fails, the text that follows the A-record line is exactly the error
description and a newline, written by the single write that follows the two
writes of the A-record line; no empty line is put before the error text. -/
theorem C5_error_follows_A_line (r : Resolver) (prog h : String) (ips : List IP)
    (e : GoError)
    (hip : r.LookupIP h = Except.ok ips) (hns : r.LookupNS h = Except.error e) :
    textAfter (aLine h ips) (run r [prog, h]).stdout = some (e.Error ++ "\n") ∧
      (writesTo Stream.Stdout (run r [prog, h]).trace).drop 2 = [e.Error ++ "\n"] := by
  have hout : (run r [prog, h]).stdout = aLine h ips ++ (e.Error ++ "\n") := by
    rw [(nsErr_output r prog h ips e hip hns).1]
    apply String.ext
    simp [aLine]
  refine ⟨?_, ?_⟩
  · rw [hout, textAfter_append]
  · rw [(nsErr_output r prog h ips e hip hns).2]
    rfl

theorem C5_error_follows_A_line_witness :
    textAfter (aLine "example.com" [⟨"93.184.216.34"⟩])
        (run noNSResolver ["go-dig", "example.com"]).stdout =
      some "lookup example.com: no such host\n" :=
  (C5_error_follows_A_line noNSResolver "go-dig" "example.com" [⟨"93.184.216.34"⟩]
    ⟨"lookup example.com: no such host"⟩ rfl rfl).1

/-- C6: the resolver calls of a run are a prefix of the address lookup and
the nameserver lookup of `os.Args[1]` (none at all without that argument);
each lookup is called at most once; a nameserver lookup is called exactly
when a hostname argument is present and its address lookup succeeded, so
never after a failed address lookup. -/
theorem C6_call_sequence (r : Resolver) (Args : List String) :
    (match Args[1]? with
      | none => (run r Args).calls = []
      | some h => (run r Args).calls <+: [Call.LookupIP h, Call.LookupNS h]) ∧
    (run r Args).calls.countP Call.isLookupIP ≤ 1 ∧
    (run r Args).calls.countP Call.isLookupNS ≤ 1 ∧
    ((∃ host, Call.LookupNS host ∈ (run r Args).calls) ↔
      ∃ h ips, Args[1]? = some h ∧ r.LookupIP h = Except.ok ips) ∧
    (∀ h e, Args[1]? = some h → r.LookupIP h = Except.error e →
      (run r Args).calls = [Call.LookupIP h]) := by
  rcases run_cases r Args with ⟨hA, hrun⟩ | ⟨h, e, hA, hip, hrun⟩ |
    ⟨h, ips, e, hA, hip, hns, hrun⟩ | ⟨h, ips, nss, hA, hip, hns, hrun⟩
  · rw [hrun, hA]
    simp [Process.calls, callsOf]
  · rw [hrun, hA]
    refine ⟨⟨[Call.LookupNS h], rfl⟩, by simp [Process.calls, callsOf, Call.isLookupIP],
      by simp [Process.calls, callsOf, Call.isLookupNS], ?_, ?_⟩
    · constructor
      · intro ⟨host, hmem⟩
        simp [Process.calls, callsOf] at hmem
      · rintro ⟨h', ips, hA', hip'⟩
        cases Option.some.inj hA'
        rw [hip] at hip'
        cases hip'
    · intro h' e' hA' _
      cases Option.some.inj hA'
      simp [Process.calls, callsOf]
  · rw [hrun, hA]
    refine ⟨List.prefix_refl _, by simp [Process.calls, callsOf, Call.isLookupIP],
      by simp [Process.calls, callsOf, Call.isLookupNS], ?_, ?_⟩
    · constructor
      · intro _
        exact ⟨h, ips, rfl, hip⟩
      · intro _
        exact ⟨h, by simp [Process.calls, callsOf]⟩
    · intro h' e' hA' hip'
      cases Option.some.inj hA'
      rw [hip] at hip'
      cases hip'
  · rw [hrun, hA]
    refine ⟨List.prefix_refl _, by simp [Process.calls, callsOf, Call.isLookupIP],
      by simp [Process.calls, callsOf, Call.isLookupNS], ?_, ?_⟩
    · constructor
      · intro _
        exact ⟨h, ips, rfl, hip⟩
      · intro _
        exact ⟨h, by simp [Process.calls, callsOf]⟩
    · intro h' e' hA' hip'
      cases Option.some.inj hA'
      rw [hip] at hip'
      cases hip'

theorem C6_call_sequence_witness :
    (run failingResolver ["go-dig", "nohost.invalid"]).calls =
      [Call.LookupIP "nohost.invalid"] :=
  (C6_call_sequence failingResolver ["go-dig", "nohost.invalid"]).2.2.2.2
    "nohost.invalid" ⟨"lookup nohost.invalid: no such host"⟩ rfl rfl

/-- C7: in a successful run in which no address and no nameserver text
contains a space, the writes to standard output are the A label, the address
line, the NS label and the nameserver line; splitting the address line
(without its newline) on spaces and dropping the final empty piece gives the
resolver's addresses, in order and in number, and likewise the nameserver
line gives the resolver's nameservers.  When moreover no such text contains a
newline, the same lists are read off the output text: the text after the
label up to the first newline. -/
theorem C7_order_preserved (r : Resolver) (prog h : String) (ips : List IP) (nss : List NS)
    (hip : r.LookupIP h = Except.ok ips) (hns : r.LookupNS h = Except.ok nss)
    (hsp : ∀ ip ∈ ips, ' ' ∉ ip.String.data) (hsn : ∀ ns ∈ nss, ' ' ∉ ns.Host.data) :
    (writesTo Stream.Stdout (run r [prog, h]).trace).length = 4 ∧
    (writesTo Stream.Stdout (run r [prog, h]).trace)[0]? =
      some ("A records for " ++ h ++ ": ") ∧
    (writesTo Stream.Stdout (run r [prog, h]).trace)[1]?.map (fun l => fields (chomp l)) =
      some (ips.map IP.String) ∧
    (writesTo Stream.Stdout (run r [prog, h]).trace)[2]? =
      some ("\nNS records for " ++ h ++ ": ") ∧
    (writesTo Stream.Stdout (run r [prog, h]).trace)[3]?.map (fun l => fields (chomp l)) =
      some (nss.map NS.Host) ∧
    ((∀ ip ∈ ips, '\n' ∉ ip.String.data) →
      (lineAfter ("A records for " ++ h ++ ": ") (run r [prog, h]).stdout).map fields =
        some (ips.map IP.String)) ∧
    ((∀ ns ∈ nss, '\n' ∉ ns.Host.data) →
      ((textAfter (aLine h ips) (run r [prog, h]).stdout).bind
          (lineAfter ("\nNS records for " ++ h ++ ": "))).map fields =
        some (nss.map NS.Host)) := by
  have hfa : fields (ipList ips) = ips.map IP.String := by
    rw [ipList_spaceTerminated]
    exact fields_spaceTerminated _ (by simpa using hsp)
  have hfn : fields (nsList nss) = nss.map NS.Host := by
    rw [nsList_spaceTerminated]
    exact fields_spaceTerminated _ (by simpa using hsn)
  have hout : (run r [prog, h]).stdout =
      "A records for " ++ h ++ ": " ++ ipList ips ++ "\n" ++
        ("\nNS records for " ++ h ++ ": " ++ nsList nss ++ "\n" ++ "") := by
    rw [run_ok r [prog, h] h ips nss (by simp) hip hns]
    apply String.ext
    simp [Process.stdout, textOf, writesTo]
  have hout' : (run r [prog, h]).stdout =
      aLine h ips ++ ("\nNS records for " ++ h ++ ": " ++ nsList nss ++ "\n" ++ "") := by
    rw [hout, aLine, ipList_spaceTerminated]
  refine ⟨?_, ?_, ?_, ?_, ?_, ?_, ?_⟩
  · rw [run_ok r [prog, h] h ips nss (by simp) hip hns]
    simp [writesTo]
  · rw [run_ok r [prog, h] h ips nss (by simp) hip hns]
    simp [writesTo]
  · rw [run_ok r [prog, h] h ips nss (by simp) hip hns]
    simp [writesTo, chomp_append_newline, hfa]
  · rw [run_ok r [prog, h] h ips nss (by simp) hip hns]
    simp [writesTo]
  · rw [run_ok r [prog, h] h ips nss (by simp) hip hns]
    simp [writesTo, chomp_append_newline, hfn]
  · intro hnl
    have hno : '\n' ∉ (ipList ips).data := by
      rw [ipList_spaceTerminated]
      exact newline_not_mem_spaceTerminated _ (by simpa using hnl)
    rw [hout, lineAfter_append _ _ _ hno]
    simp [hfa]
  · intro hnl
    have hno : '\n' ∉ (nsList nss).data := by
      rw [nsList_spaceTerminated]
      exact newline_not_mem_spaceTerminated _ (by simpa using hnl)
    rw [hout', textAfter_append, Option.some_bind, lineAfter_append _ _ _ hno]
    simp [hfn]

theorem C7_order_preserved_witness :
    (writesTo Stream.Stdout (run exampleResolver ["go-dig", "example.com"]).trace)[1]?.map
        (fun l => fields (chomp l)) = some ["93.184.216.34"] ∧
    (writesTo Stream.Stdout (run exampleResolver ["go-dig", "example.com"]).trace)[3]?.map
        (fun l => fields (chomp l)) = some ["a.iana-servers.net.", "b.iana-servers.net."] :=
  ⟨(C7_order_preserved exampleResolver "go-dig" "example.com" [⟨"93.184.216.34"⟩]
      [⟨"a.iana-servers.net."⟩, ⟨"b.iana-servers.net."⟩] rfl rfl
      (by decide) (by decide)).2.2.1,
   (C7_order_preserved exampleResolver "go-dig" "example.com" [⟨"93.184.216.34"⟩]
      [⟨"a.iana-servers.net."⟩, ⟨"b.iana-servers.net."⟩] rfl rfl
      (by decide) (by decide)).2.2.2.2.1⟩

/-- C8: whatever the arguments and the resolver's answers, the process
exits with status 0, every write it makes goes to standard output, and
nothing is written to standard error. -/
theorem C8_exit_zero_stdout_only (r : Resolver) (Args : List String) :
    (run r Args).exit = 0 ∧
    (∀ fd text, Event.Write fd text ∈ (run r Args).trace → fd = Stream.Stdout) ∧
    writesTo Stream.Stderr (run r Args).trace = [] ∧
    (run r Args).stderr = "" := by
  rcases run_cases r Args with ⟨_, hrun⟩ | ⟨h, e, _, _, hrun⟩ |
    ⟨h, ips, e, _, _, _, hrun⟩ | ⟨h, ips, nss, _, _, _, hrun⟩ <;>
  · rw [hrun]
    refine ⟨rfl, ?_, by simp [writesTo], by simp [Process.stderr, textOf, writesTo, String.join]⟩
    intro fd text hmem
    simp at hmem
    tauto

/-- C9: with at least two arguments, the run is the run on the first two
arguments alone (same trace, same output, same resolver calls, same exit
status), and changing the program name changes nothing; without a hostname
the usage line names `go-dig` whatever the program name is. -/
theorem C9_extra_arguments_ignored (r : Resolver) (Args : List String)
    (h2 : 2 ≤ Args.length) :
    run r Args = run r [Args[0], Args[1]] ∧
    (run r Args).stdout = (run r [Args[0], Args[1]]).stdout ∧
    (run r Args).calls = (run r [Args[0], Args[1]]).calls ∧
    (∀ prog, run r (prog :: Args.tail) = run r Args) ∧
    (∀ prog, (run r [prog]).stdout = "Usage: go-dig <hostname>\n") := by
  have hrun : run r Args = run r [Args[0], Args[1]] := by
    apply run_congr
    simp [List.getElem?_eq_getElem (show 1 < Args.length by omega)]
  refine ⟨hrun, by rw [hrun], by rw [hrun], ?_, ?_⟩
  · intro prog
    apply run_congr
    match Args, h2 with
    | _ :: _ :: _, _ => simp
  · intro prog
    rw [run_noArg r [prog] (by simp)]
    decide

theorem C9_extra_arguments_ignored_witness :
    run exampleResolver ["go-dig", "example.com", "-x", "mx"] =
      run exampleResolver ["go-dig", "example.com"] ∧
    run exampleResolver ["dig", "example.com", "-x", "mx"] =
      run exampleResolver ["go-dig", "example.com", "-x", "mx"] :=
  ⟨(C9_extra_arguments_ignored exampleResolver ["go-dig", "example.com", "-x", "mx"]
      (by decide)).1,
   (C9_extra_arguments_ignored exampleResolver ["go-dig", "example.com", "-x", "mx"]
      (by decide)).2.2.2.1 "dig"⟩

/-- C10: an address lookup that succeeds with no address still prints the
A label and an empty list line and is followed by the nameserver lookup; a
nameserver lookup that succeeds with no nameserver still prints the NS label
and an empty list line; and the output of every run is non-empty and ends
with a newline. -/
theorem C10_empty_results (r : Resolver) (prog h : String) :
    (r.LookupIP h = Except.ok [] →
      [Event.CallLookupIP h, Event.Write Stream.Stdout ("A records for " ++ h ++ ": "),
        Event.Write Stream.Stdout "\n", Event.CallLookupNS h] <+: (run r [prog, h]).trace ∧
      ("A records for " ++ h ++ ": \n").data <+: (run r [prog, h]).stdout.data ∧
      (run r [prog, h]).calls = [Call.LookupIP h, Call.LookupNS h]) ∧
    (∀ ips, r.LookupIP h = Except.ok ips → r.LookupNS h = Except.ok [] →
      (run r [prog, h]).stdout = aLine h ips ++ "\nNS records for " ++ h ++ ": \n") ∧
    (∀ Args, (run r Args).stdout ≠ "" ∧ (run r Args).stdout.data.getLast? = some '\n') := by
  refine ⟨?_, ?_, ?_⟩
  · intro hip
    cases hns : r.LookupNS h with
    | error e =>
      rw [run_nsErr r [prog, h] h [] e (by simp) hip hns]
      refine ⟨⟨[Event.Write Stream.Stdout (e.Error ++ "\n")], by simp [ipList]⟩, ?_,
        by simp [Process.calls, callsOf]⟩
      refine ⟨(e.Error ++ "\n").data, ?_⟩
      simp [Process.stdout, textOf, writesTo, ipList]
    | ok nss =>
      rw [run_ok r [prog, h] h [] nss (by simp) hip hns]
      refine ⟨⟨[Event.Write Stream.Stdout ("\nNS records for " ++ h ++ ": "),
        Event.Write Stream.Stdout (nsList nss ++ "\n")], by simp [ipList]⟩, ?_,
        by simp [Process.calls, callsOf]⟩
      refine ⟨("\nNS records for " ++ h ++ ": " ++ nsList nss ++ "\n").data, ?_⟩
      simp [Process.stdout, textOf, writesTo, ipList]
  · intro ips hip hns
    rw [run_ok r [prog, h] h ips [] (by simp) hip hns, aLine, ← ipList_spaceTerminated]
    apply String.ext
    simp [Process.stdout, textOf, writesTo, nsList]
  · intro Args
    obtain ⟨body, hbody⟩ := stdout_ends_with_newline r Args
    constructor
    · intro hempty
      rw [hempty] at hbody
      simp at hbody
    · rw [hbody]
      simp

theorem C10_empty_results_witness :
    (run emptyResolver ["go-dig", "example.com"]).stdout =
      "A records for example.com: \n\nNS records for example.com: \n" :=
  ((C10_empty_results emptyResolver "go-dig" "example.com").2.1 [] rfl rfl).trans (by decide)

end GoDig
